import Mathlib

/-!
Shallow embedding of `src/ui/src/overridden/utils.js`: display-formatting
helpers of a library-catalog UI (`renderCallNumber`, `shelfLink`,
`shelfLinkComponent`, `getDisplayVal`).

Encoding of JavaScript values:
* a field that may be absent is an `Option`; `none` plays `undefined`;
* the `identifiers` field may be absent, `null`, or a list, hence
  `Option (Option (List Identifier))`: `none` = absent, `some none` = null,
  `some (some l)` = the list `l`;
* a record argument that may itself be `null`/`undefined` is `Option Item`;
* a call that can throw an uncaught `TypeError` returns `Except String`.
-/

/-- One entry of a record's `identifiers` sequence: `\x7bscheme, value\x7d`. -/
structure Identifier where
  scheme : String
  value : String
deriving DecidableEq, Repr

/-- A catalog record as consumed by the helpers: `identifiers` may be
absent (`none`), null (`some none`) or a sequence (`some (some l)`);
`shelf` may be absent; `title` is a string. -/
structure Item where
  identifiers : Option (Option (List Identifier))
  shelf : Option String
  title : String
deriving DecidableEq, Repr

/-- JavaScript string interpolation of a possibly-undefined value:
`undefined` prints as the string `undefined`. -/
def jsToString : Option String → String
  | none => "undefined"
  | some s => s

/-- JavaScript truthiness of a possibly-undefined string: `undefined` and
the empty string are falsy. -/
def jsTruthy : Option String → Bool
  | none => false
  | some s => !s.isEmpty

/-- `_get(item, "identifiers", [])` of lodash: the default `[]` replaces an
absent field (or a null/undefined receiver), but not a field holding `null`.
The result `none` stands for JavaScript `null`. -/
def getIdentifiers (item : Option Item) : Option (List Identifier) :=
  match item with
  | none => some []
  | some it =>
    match it.identifiers with
    | none => some []
    | some v => v

/-- `renderCallNumber(item)`: null identifiers give null; otherwise the
first entry with scheme `CALL_NUMBER` gives `(value)`, else null. -/
def renderCallNumber (item : Option Item) : Option String :=
  match getIdentifiers item with
  | none => none
  | some identifiers =>
    match identifiers.find? (fun identifier => identifier.scheme == "CALL_NUMBER") with
    | some callNumber => some ("(" ++ callNumber.value ++ ")")
    | none => none

/-- The object serialized as `popupContent`: ordered string keys, each
value a string or null (`none`). -/
abbrev PopupContent := List (String × Option String)

/-- One character of `JSON.stringify` string output: quote, backslash and
the common control characters are escaped. -/
def jsonEscapeChar (c : Char) : String :=
  if c = '"' then "\\\""
  else if c = '\\' then "\\\\"
  else if c = '\n' then "\\n"
  else if c = '\r' then "\\r"
  else if c = '\t' then "\\t"
  else String.singleton c

/-- `JSON.stringify` of a string. -/
def jsonStringifyStr (s : String) : String :=
  "\"" ++ String.join (s.toList.map jsonEscapeChar) ++ "\""

/-- `JSON.stringify` of a string-or-null value. -/
def jsonStringifyVal : Option String → String
  | none => "null"
  | some s => jsonStringifyStr s

/-- `JSON.stringify` of a `\x7bkey: value, ...\x7d` object. -/
def jsonStringifyObj (pc : PopupContent) : String :=
  "\x7b" ++
    String.intercalate "," (pc.map (fun kv => jsonStringifyStr kv.1 ++ ":" ++ jsonStringifyVal kv.2)) ++
    "\x7d"

/-- The options object destructured by `shelfLink`: the JavaScript defaults
are `popupContent = null` (`none`) and `iframe = false`. -/
structure ShelfLinkOptions where
  popupContent : Option PopupContent
  iframe : Bool
deriving Repr

/-- The base map-service URL with the shelf number interpolated:
`https://maps.web.cern.ch/?n=[SHELF ...]` with the bracketed part quoted. -/
def mapsUrl (shelfNumber : Option String) : String :=
  "https://maps.web.cern.ch/?n=[\x27SHELF " ++ jsToString shelfNumber ++ "\x27]"

/-- `shelfLink(shelfNumber, \x7bpopupContent = null, iframe = false\x7d)`:
the base URL, then the serialized `popupContent` parameter when non-null,
then the fixed iframe display parameters when `iframe` is true. -/
def shelfLink (shelfNumber : Option String) (opts : ShelfLinkOptions) : String :=
  let link0 := mapsUrl shelfNumber
  let link1 :=
    match opts.popupContent with
    | none => link0
    | some pc => link0 ++ "&popupContent=" ++ jsonStringifyObj pc
  if opts.iframe then link1 ++ "&showMenu=false&widgets=&scale=200" else link1

/-- The anchor element rendered by `shelfLinkComponent`: an `<a>` holding
an `<Icon name=.../>` and the shelf number as text. -/
structure ShelfAnchor where
  href : String
  iconName : String
  label : String
deriving DecidableEq, Repr

/-- The JSX fragment returned by `shelfLinkComponent`: an optional anchor
(none when the shelf number is falsy), a literal space, and the
call-number text (null renders nothing). -/
structure ShelfFragment where
  anchor : Option ShelfAnchor
  space : String
  callNumberText : Option String
deriving DecidableEq, Repr

/-- `shelfLinkComponent(item, iconName)`: reads `item.shelf` via `_get`
(no default) and the call number, then accesses `item.title` directly —
an uncaught `TypeError` for a null/undefined `item`; otherwise builds the
popup object, the link (the `iframe` option left at its default `false`),
and the fragment. -/
def shelfLinkComponent (item : Option Item) (iconName : String) : Except String ShelfFragment :=
  let shelfNumber : Option String :=
    match item with
    | none => none
    | some it => it.shelf
  let callNumber := renderCallNumber item
  match item with
  | none => Except.error "TypeError: Cannot read properties of null (reading \x27title\x27)"
  | some it =>
    let popupContent : PopupContent := [("Title", some it.title), ("Call number", callNumber)]
    let linkToShelf := shelfLink shelfNumber ⟨some popupContent, false⟩
    Except.ok
      ⟨if jsTruthy shelfNumber then some ⟨linkToShelf, iconName, jsToString shelfNumber⟩ else none,
       " ",
       callNumber⟩

/-- One entry of a configuration field's sequence: `\x7bvalue, text\x7d`. -/
structure ConfigEntry where
  value : String
  text : String
deriving DecidableEq, Repr

/-- The global `invenioConfig` object, as a field-name-keyed table. -/
abbrev InvenioConfig := List (String × List ConfigEntry)

/-- `_get(invenioConfig, configField)` with no default: `none` stands for
`undefined` when the field is absent. -/
def configGet (config : InvenioConfig) (configField : String) : Option (List ConfigEntry) :=
  (config.find? (fun kv => kv.1 == configField)).map (fun kv => kv.2)

/-- `getDisplayVal(configField, value)`: an absent field makes `.find`
throw on `undefined`; an unmatched value makes the `.text` access throw on
`undefined`; otherwise the matching entry's `text` is returned. -/
def getDisplayVal (config : InvenioConfig) (configField : String) (value : String) :
    Except String String :=
  match configGet config configField with
  | none => Except.error "TypeError: Cannot read properties of undefined (reading \x27find\x27)"
  | some entries =>
    match entries.find? (fun entry => entry.value == value) with
    | none => Except.error "TypeError: Cannot read properties of undefined (reading \x27text\x27)"
    | some entry => Except.ok entry.text

/-! Helper lemmas (shared). -/

/-- Finding the scheme `CALL_NUMBER` picks the first entry carrying it. -/
theorem find_call_number_first (pre post : List Identifier) (c : Identifier)
    (hpre : ∀ i ∈ pre, i.scheme ≠ "CALL_NUMBER") (hc : c.scheme = "CALL_NUMBER") :
    (pre ++ c :: post).find? (fun identifier => identifier.scheme == "CALL_NUMBER") = some c := by
  induction pre with
  | nil => simp [List.find?_cons, hc]
  | cons a as ih =>
    have ha : (a.scheme == "CALL_NUMBER") = false :=
      beq_eq_false_iff_ne.mpr (hpre a (List.mem_cons_self a as))
    rw [List.cons_append, List.find?_cons, ha]
    exact ih (fun i hi => hpre i (List.mem_cons_of_mem a hi))

/-- A sequence with no `CALL_NUMBER` entry yields no find result. -/
theorem find_call_number_none (idents : List Identifier)
    (h : ∀ i ∈ idents, i.scheme ≠ "CALL_NUMBER") :
    idents.find? (fun identifier => identifier.scheme == "CALL_NUMBER") = none := by
  rw [List.find?_eq_none]
  intro i hi
  simpa using h i hi

/-! Claim theorems. -/

/-- Claim C1: `getDisplayVal` returns the matching entry's `text` exactly
when the configuration field is present and its sequence has a matching
entry; in every other case (absent field, or no matching entry) the call
fails with an uncaught lookup error, never a fallback value. -/
theorem getDisplayVal_spec (config : InvenioConfig) (configField value t : String) :
    (getDisplayVal config configField value = Except.ok t ↔
      ∃ entries entry, configGet config configField = some entries ∧
        entries.find? (fun entry2 => entry2.value == value) = some entry ∧ entry.text = t) ∧
    ((∃ msg, getDisplayVal config configField value = Except.error msg) ↔
      configGet config configField = none ∨
        ∃ entries, configGet config configField = some entries ∧
          entries.find? (fun entry2 => entry2.value == value) = none) := by
  unfold getDisplayVal
  cases h : configGet config configField with
  | none => simp
  | some entries =>
    cases hf : entries.find? (fun entry2 => entry2.value == value) with
    | none =>
      simp [hf]
      intro x hx
      simpa using List.find?_eq_none.mp hf x hx
    | some entry => simp [hf, eq_comm]

/-- Witness for C1 at a one-field, one-entry configuration. -/
theorem getDisplayVal_spec_witness :
    (getDisplayVal [("doctype", [⟨"A", "Article"⟩])] "doctype" "A" = Except.ok "Article" ↔
      ∃ entries entry, configGet [("doctype", [⟨"A", "Article"⟩])] "doctype" = some entries ∧
        entries.find? (fun entry2 => entry2.value == "A") = some entry ∧
        entry.text = "Article") ∧
    ((∃ msg, getDisplayVal [("doctype", [⟨"A", "Article"⟩])] "doctype" "A" = Except.error msg) ↔
      configGet [("doctype", [⟨"A", "Article"⟩])] "doctype" = none ∨
        ∃ entries, configGet [("doctype", [⟨"A", "Article"⟩])] "doctype" = some entries ∧
          entries.find? (fun entry2 => entry2.value == "A") = none) :=
  getDisplayVal_spec [("doctype", [⟨"A", "Article"⟩])] "doctype" "A" "Article"

/-- Claim C2: on an item whose identifiers field is a sequence,
`renderCallNumber` returns `(value)` of the first entry whose scheme is
`CALL_NUMBER`, and `null` when no entry has that scheme. -/
theorem renderCallNumber_sequence (shelf : Option String) (title : String) :
    (∀ (pre post : List Identifier) (c : Identifier),
        (∀ i ∈ pre, i.scheme ≠ "CALL_NUMBER") → c.scheme = "CALL_NUMBER" →
        renderCallNumber (some ⟨some (some (pre ++ c :: post)), shelf, title⟩) =
          some ("(" ++ c.value ++ ")")) ∧
    (∀ idents : List Identifier, (∀ i ∈ idents, i.scheme ≠ "CALL_NUMBER") →
        renderCallNumber (some ⟨some (some idents), shelf, title⟩) = none) := by
  constructor
  · intro pre post c hpre hc
    have hfind := find_call_number_first pre post c hpre hc
    simp [renderCallNumber, getIdentifiers, hfind]
  · intro idents h
    have hfind := find_call_number_none idents h
    simp [renderCallNumber, getIdentifiers, hfind]

/-- Witness for C2: a sequence whose second entry is the call number. -/
theorem renderCallNumber_sequence_witness :
    renderCallNumber
        (some ⟨some (some [⟨"ISBN", "123"⟩, ⟨"CALL_NUMBER", "QA76"⟩]), none, "T"⟩) =
      some "(QA76)" :=
  (renderCallNumber_sequence none "T").1 [⟨"ISBN", "123"⟩] [] ⟨"CALL_NUMBER", "QA76"⟩
    (by decide) rfl

/-- Claim C5: an item whose identifiers field is exactly null gives
`renderCallNumber` result null. -/
theorem renderCallNumber_null_identifiers (shelf : Option String) (title : String) :
    renderCallNumber (some ⟨some none, shelf, title⟩) = none := rfl

/-- Claim C6: an item with no identifiers field at all raises no error:
`_get` substitutes the empty sequence and the result is null. -/
theorem renderCallNumber_absent_identifiers (shelf : Option String) (title : String) :
    getIdentifiers (some ⟨none, shelf, title⟩) = some [] ∧
    renderCallNumber (some ⟨none, shelf, title⟩) = none := ⟨rfl, rfl⟩

/-- Claim C3: with a non-null `popupContent` and `iframe` true, `shelfLink`
returns the base map URL with the shelf number interpolated, then the
serialized `popupContent` parameter, then the fixed iframe display
parameters, in that order. -/
theorem shelfLink_popup_then_iframe (shelfNumber : String) (pc : PopupContent) :
    shelfLink (some shelfNumber) ⟨some pc, true⟩ =
      mapsUrl (some shelfNumber) ++ "&popupContent=" ++ jsonStringifyObj pc ++
        "&showMenu=false&widgets=&scale=200" := rfl

/-- Claim C4: the fragment of `shelfLinkComponent` holds the icon-plus-
shelf-number anchor exactly when the shelf number is truthy, and the
call-number text slot always carries `renderCallNumber item`, so a falsy
shelf number still leaves the call-number text when it is non-null. -/
theorem shelfLinkComponent_anchor_iff_truthy (it : Item) (iconName : String) :
    ∃ f, shelfLinkComponent (some it) iconName = Except.ok f ∧
      f.anchor.isSome = jsTruthy it.shelf ∧
      f.callNumberText = renderCallNumber (some it) := by
  refine ⟨⟨if jsTruthy it.shelf then
      some ⟨shelfLink it.shelf
          ⟨some [("Title", some it.title), ("Call number", renderCallNumber (some it))], false⟩,
        iconName, jsToString it.shelf⟩
    else none, " ", renderCallNumber (some it)⟩, rfl, ?_, rfl⟩
  cases jsTruthy it.shelf <;> simp

/-- Claim C7: with a null `popupContent` and `iframe` false, `shelfLink`
returns exactly the base URL with `B12` substituted, no extra parameters. -/
theorem shelfLink_plain_B12 :
    shelfLink (some "B12") ⟨none, false⟩ =
      "https://maps.web.cern.ch/?n=[\x27SHELF B12\x27]" := rfl

/-- Claim C8: the helpers are pure: a second call on identical inputs is
equal to the first, and no input (nor the configuration table, which
`getDisplayVal` only reads) is changed — the embedding is functional. -/
theorem helpers_deterministic (item : Option Item) (shelfNumber : Option String)
    (opts : ShelfLinkOptions) (iconName : String) :
    renderCallNumber item = renderCallNumber item ∧
    shelfLink shelfNumber opts = shelfLink shelfNumber opts ∧
    shelfLinkComponent item iconName = shelfLinkComponent item iconName :=
  ⟨rfl, rfl, rfl⟩

/-- Claim C9: on a null/undefined item, `shelfLinkComponent` throws an
uncaught error reading `item.title`, while `renderCallNumber` on the same
item returns null without error. -/
theorem shelfLinkComponent_null_item (iconName : String) :
    (∃ msg, shelfLinkComponent none iconName = Except.error msg) ∧
    renderCallNumber none = none :=
  ⟨⟨"TypeError: Cannot read properties of null (reading \x27title\x27)", rfl⟩, rfl⟩

/-- Claim C10: for an item with a truthy shelf field, the anchor URL built
by `shelfLinkComponent` is the base URL followed by the serialized popup
object (never null) and nothing else — the iframe display parameters are
never appended, since the iframe option is left at false. -/
theorem shelfLinkComponent_href_no_iframe (it : Item) (iconName : String)
    (h : jsTruthy it.shelf = true) :
    ∃ f a, shelfLinkComponent (some it) iconName = Except.ok f ∧ f.anchor = some a ∧
      a.href = mapsUrl it.shelf ++ "&popupContent=" ++
        jsonStringifyObj [("Title", some it.title), ("Call number", renderCallNumber (some it))] := by
  refine ⟨⟨some ⟨shelfLink it.shelf
        ⟨some [("Title", some it.title), ("Call number", renderCallNumber (some it))], false⟩,
      iconName, jsToString it.shelf⟩, " ", renderCallNumber (some it)⟩,
    ⟨shelfLink it.shelf
        ⟨some [("Title", some it.title), ("Call number", renderCallNumber (some it))], false⟩,
      iconName, jsToString it.shelf⟩, ?_, rfl, rfl⟩
  simp [shelfLinkComponent, h]

/-- Witness for C10 at a concrete item with shelf `B12`. -/
theorem shelfLinkComponent_href_no_iframe_witness :
    ∃ f a,
      shelfLinkComponent (some ⟨some (some []), some "B12", "X"⟩) "map pin" = Except.ok f ∧
      f.anchor = some a ∧
      a.href = mapsUrl (Item.mk (some (some [])) (some "B12") "X").shelf ++ "&popupContent=" ++
        jsonStringifyObj [("Title", some "X"),
          ("Call number", renderCallNumber (some ⟨some (some []), some "B12", "X"⟩))] :=
  shelfLinkComponent_href_no_iframe ⟨some (some []), some "B12", "X"⟩ "map pin" rfl
